import Mathlib

/-!
Verification development for the DoTransactionService of the
salla-smart-chat-integration repository: a shallow embedding of the
purchase-order fulfillment pipeline (balance and pricing verification,
per-voucher transaction execution, retry, order status aggregation and the
Salla stock/code publishing step), together with theorems settling the
frozen claims about it.

Modelling conventions:
 - JavaScript numbers are embedded as rationals; timestamps as naturals.
 - Fallible calls (authentication, pricing lookup, HTTP fetch) are
   environment functions returning Except or an explicit outcome type, so
   a thrown JS error corresponds to an error value.
 - Repository saves are modelled by threading the record lists through the
   functions; per-call persistence failures are not modelled.
 - JavaScript truthiness coercions that appear in the source (x || 0,
   x || null, if (x)) are embedded by explicit helper functions below.
-/

/-- Status values of one voucher unit, from the source enum VoucherStatus. -/
inductive VoucherStatus
  | PENDING
  | PROCESSING
  | GENERATED
  | FAILED
deriving DecidableEq

/-- Status values of a purchase order, from the source enum PurchaseOrderStatus. -/
inductive PurchaseOrderStatus
  | DRAFT
  | PENDING
  | PROCESSING
  | COMPLETED
  | PARTIALLY_COMPLETED
  | FAILED
  | CANCELLED
deriving DecidableEq

/-- JavaScript x || null on an optional number: null, undefined and 0 give null. -/
def jsNumOrNull (x : Option ℚ) : Option ℚ :=
  match x with
  | some a => if a = 0 then none else some a
  | none => none

/-- JavaScript x || null on an optional integer: null, undefined and 0 give null. -/
def jsIntOrNull (x : Option ℤ) : Option ℤ :=
  match x with
  | some a => if a = 0 then none else some a
  | none => none

/-- JavaScript x || null on an optional string: null, undefined and the empty string give null. -/
def jsStrOrNull (x : Option String) : Option String :=
  match x with
  | some s => if s = "" then none else some s
  | none => none

/-- JavaScript x || d on a string: the empty string falls back to the default. -/
def jsStrOrDefault (s : String) (d : String) : String :=
  if s = "" then d else s

/-- JavaScript x || d on an optional string: null, undefined and the empty string fall back. -/
def jsStrOptOrDefault (x : Option String) (d : String) : String :=
  match x with
  | some s => jsStrOrDefault s d
  | none => d

/-- JavaScript truthiness of an optional number: null, undefined and 0 are falsy. -/
def jsNumTruthy (x : Option ℚ) : Bool :=
  match x with
  | some a => decide (a ≠ 0)
  | none => false

/-- JavaScript truthiness of an optional string: null, undefined and the empty string are falsy. -/
def jsStrTruthy (x : Option String) : Bool :=
  match x with
  | some s => decide (s ≠ "")
  | none => false

/-- Nested PaymentResultData of a DoTransaction response (source interface DoTransactionResponse). -/
structure PaymentResultData where
  ExternalId : Option String := none
  Product : Option String := none
  ResponseAmount : Option ℚ := none
  AmountWholesale : Option ℚ := none
  Quantity : Option ℚ := none
  SerialNumber : Option String := none
  TransactionId : Option ℤ := none
  ProviderTransactionId : Option ℤ := none
  Reference : Option String := none
  RedeemUrl : Option String := none
deriving DecidableEq

/-- Parsed body of a DoTransaction response (source interface DoTransactionResponse). -/
structure DoTransactionResponse where
  OperationSucceeded : Bool
  Status : Option ℤ := none
  Error : Option ℤ := none
  ErrorText : Option String := none
  PaymentResultData : Option PaymentResultData := none
deriving DecidableEq

/-- Request body of a DoTransaction call (source interface DoTransactionRequest). -/
structure DoTransactionRequest where
  Token : String
  ExternalId : String
  ProductTypeCode : String
  ProductOptionCode : String
  Amount : ℚ
  Quantity : ℕ
deriving DecidableEq

/-- Pricing band of one product option (source interface ProductPricing). -/
structure ProductPricing where
  product_option_code : String
  min_wholesale_value : ℚ
  max_wholesale_value : ℚ
  min_face_value : ℚ
  max_face_value : ℚ
deriving DecidableEq

/-- One purchase line item (entity MerchantVoucherPurchaseItem): a product option
with an ordered quantity, face value and wholesale cost. -/
structure MerchantVoucherPurchaseItem where
  product_option_code : String
  quantity_ordered : ℕ
  unit_face_value : Option ℚ
  unit_wholesale_price : ℚ
  total_wholesale_cost : ℚ
deriving DecidableEq

/-- One voucher unit (entity MerchantVoucherPurchaseDetail), together with its
loaded purchaseItem relation as the source queries always load it. -/
structure MerchantVoucherPurchaseDetail where
  external_id : String
  purchase_id : String
  status : VoucherStatus
  retry_count : ℕ
  operation_succeeded : Option Bool := none
  error_text : Option String := none
  response_amount : Option ℚ := none
  amount_wholesale : Option ℚ := none
  serial_number : Option String := none
  transaction_id : Option ℤ := none
  provider_transaction_id : Option ℤ := none
  reference : Option String := none
  redeem_url : Option String := none
  request_sent_at : Option ℕ := none
  response_received_at : Option ℕ := none
  response_time_ms : Option ℕ := none
  processed_at : Option ℕ := none
  ubiqfy_response : Option DoTransactionResponse := none
  salla_synced : Bool := false
  salla_synced_at : Option ℕ := none
  purchaseItem : MerchantVoucherPurchaseItem
deriving DecidableEq

/-- A purchase order (entity MerchantVoucherPurchase). -/
structure MerchantVoucherPurchase where
  id : String
  salla_store_id : String
  status : PurchaseOrderStatus
  total_wholesale_cost : ℚ := 0
  ubiqfy_balance_before : Option ℚ := none
  ubiqfy_balance_after : Option ℚ := none
  error_message : Option String := none
  success_message : Option String := none
  navigation_url : Option String := none
  total_vouchers_generated : ℕ := 0
  total_vouchers_failed : ℕ := 0
  processing_started_at : Option ℕ := none
  processing_completed_at : Option ℕ := none
deriving DecidableEq

/-- A row of salla_store_product_options (entity SallaStoreProductOption). -/
structure SallaStoreProductOption where
  option_code : String
  salla_product_id : Option String := none
  original_price_usd : ℚ := 0
  wholesale_price_usd : ℚ := 0
  min_face_value : Option ℚ := none
  store_currency_price : Option ℚ := none
  custom_price : Option ℚ := none
  markup_percentage : ℚ := 0
  stock_quantity : Option ℕ := none
  last_stock_update : Option ℕ := none
deriving DecidableEq

/-- Result of authenticateWithUbiqfy as consumed by the service: a bearer token,
the base API URL and the plafond balance. -/
structure AuthResult where
  token : String
  baseUrl : String
  plafond : ℚ
deriving DecidableEq

/-- Source handleDoTransactionResponse: persist timestamps and latency, then set
GENERATED with the extracted payload fields, or FAILED with the issuer error text,
according to OperationSucceeded. -/
def handleDoTransactionResponse (voucher : MerchantVoucherPurchaseDetail)
    (response : DoTransactionResponse) (responseTime : ℕ) (now : ℕ) :
    MerchantVoucherPurchaseDetail :=
  let v := { voucher with
    response_received_at := some now
    response_time_ms := some responseTime
    ubiqfy_response := some response }
  if response.OperationSucceeded then
    let v := { v with status := VoucherStatus.GENERATED, operation_succeeded := some true }
    let v :=
      match response.PaymentResultData with
      | some resultData =>
        { v with
          response_amount := jsNumOrNull resultData.ResponseAmount
          amount_wholesale := jsNumOrNull resultData.AmountWholesale
          serial_number := jsStrOrNull resultData.SerialNumber
          transaction_id := jsIntOrNull resultData.TransactionId
          provider_transaction_id := jsIntOrNull resultData.ProviderTransactionId
          reference := jsStrOrNull resultData.Reference
          redeem_url := jsStrOrNull resultData.RedeemUrl }
      | none => v
    { v with processed_at := some now }
  else
    { v with
      status := VoucherStatus.FAILED
      operation_succeeded := some false
      error_text := some (jsStrOptOrDefault response.ErrorText "Unknown error")
      processed_at := some now }

/-- Source handleDoTransactionError: persist timestamps and latency, set FAILED,
capture the error message and increment the retry count. -/
def handleDoTransactionError (voucher : MerchantVoucherPurchaseDetail)
    (errorMessage : String) (responseTime : ℕ) (now : ℕ) :
    MerchantVoucherPurchaseDetail :=
  { voucher with
    response_received_at := some now
    response_time_ms := some responseTime
    status := VoucherStatus.FAILED
    operation_succeeded := some false
    error_text := some (jsStrOrDefault errorMessage "API call failed")
    processed_at := some now
    retry_count := voucher.retry_count + 1 }

/-- The request body built by processSingleVoucher before calling the issuer. -/
def buildDoTransactionRequest (token : String) (voucher : MerchantVoucherPurchaseDetail) :
    DoTransactionRequest :=
  { Token := token
    ExternalId := voucher.external_id
    ProductTypeCode := "Voucher"
    ProductOptionCode := voucher.purchaseItem.product_option_code
    Amount := (voucher.purchaseItem.unit_face_value).getD 0
    Quantity := 1 }

/-- Outcome of the fetch call to the DoTransaction endpoint: a thrown network
error, a non-2xx HTTP response, or a parsed JSON body. -/
inductive FetchOutcome
  | networkError (msg : String)
  | httpError (status : ℕ) (statusText : String)
  | parsed (response : DoTransactionResponse)
deriving DecidableEq

/-- Environment of one processSingleVoucher call: whether the purchase row and
its store were found, the authentication outcome, the fetch outcome per request,
and the clock readings at send and receive time. -/
structure VoucherEnv where
  purchaseFound : Bool
  auth : Except String AuthResult
  fetch : DoTransactionRequest → FetchOutcome
  startTime : ℕ
  endTime : ℕ

/-- Result of one processSingleVoucher call: the persisted voucher row, the
request submitted to the issuer (none when the call failed before the request
was built) and the re-thrown error message if the call threw. -/
structure SingleVoucherResult where
  voucher : MerchantVoucherPurchaseDetail
  sentRequest : Option DoTransactionRequest
  thrown : Option String
deriving DecidableEq

/-- Source processSingleVoucher: mark PROCESSING and stamp the send time, then
look up the purchase, authenticate, build the request and call the issuer.
Every thrown error routes through handleDoTransactionError and is re-thrown;
a parsed response routes through handleDoTransactionResponse. -/
def processSingleVoucher (env : VoucherEnv) (voucher : MerchantVoucherPurchaseDetail) :
    SingleVoucherResult :=
  let v0 := { voucher with
    status := VoucherStatus.PROCESSING
    request_sent_at := some env.startTime }
  let responseTime := env.endTime - env.startTime
  if env.purchaseFound then
    match env.auth with
    | Except.error msg =>
      { voucher := handleDoTransactionError v0 msg responseTime env.endTime
        sentRequest := none
        thrown := some msg }
    | Except.ok auth =>
      let request := buildDoTransactionRequest auth.token v0
      match env.fetch request with
      | FetchOutcome.networkError msg =>
        { voucher := handleDoTransactionError v0 msg responseTime env.endTime
          sentRequest := some request
          thrown := some msg }
      | FetchOutcome.httpError code statusText =>
        let msg := "HTTP " ++ toString code ++ ": " ++ statusText
        { voucher := handleDoTransactionError v0 msg responseTime env.endTime
          sentRequest := some request
          thrown := some msg }
      | FetchOutcome.parsed response =>
        { voucher := handleDoTransactionResponse v0 response responseTime env.endTime
          sentRequest := some request
          thrown := none }
  else
    let msg := "Purchase or associated store not found for voucher processing"
    { voucher := handleDoTransactionError v0 msg responseTime env.endTime
      sentRequest := none
      thrown := some msg }

/-- Environment of checkBalanceAndUpdatePricing: the authentication outcome and
the outcome of getProductPricing per product option code. -/
structure BalanceEnv where
  auth : Except String AuthResult
  pricing : String → Except String ProductPricing

/-- Return value of checkBalanceAndUpdatePricing. -/
structure BalanceCheckReturn where
  balance : ℚ
  sufficient : Bool
  totalCost : ℚ
deriving DecidableEq

/-- Body of the per-row update in updateSallaStoreProductOptionPricing: take the
minimum wholesale value as the new price, optionally refresh the face value,
rescale the store currency price by the previous conversion rate and recompute
the markup percentage. -/
def applyPricingToOption (pricing : ProductPricing) (storeOption : SallaStoreProductOption) :
    SallaStoreProductOption :=
  let newWholesalePriceUSD := pricing.min_wholesale_value
  let oldWholesalePriceUSD := storeOption.original_price_usd
  let o1 : SallaStoreProductOption := { storeOption with
    original_price_usd := newWholesalePriceUSD
    wholesale_price_usd := newWholesalePriceUSD }
  let o2 : SallaStoreProductOption :=
    if pricing.min_face_value ≠ 0 then { o1 with min_face_value := some pricing.min_face_value }
    else o1
  let o3 : SallaStoreProductOption :=
    if jsNumTruthy o2.store_currency_price && decide (oldWholesalePriceUSD > 0) then
      let currentConversionRate := (o2.store_currency_price.getD 0) / oldWholesalePriceUSD
      { o2 with store_currency_price := some (newWholesalePriceUSD * currentConversionRate) }
    else o2
  if jsNumTruthy o3.custom_price && decide ((o3.store_currency_price.getD 0) > 0) then
    let markupAmount := (o3.custom_price.getD 0) - (o3.store_currency_price.getD 0)
    { o3 with markup_percentage := markupAmount / (o3.store_currency_price.getD 0) * 100 }
  else o3

/-- Source updateSallaStoreProductOptionPricing applied to the stored option rows:
every row whose option_code matches is updated; internal errors are swallowed by
the source, so the function is total. -/
def updateMatchingOptions (productOptionCode : String) (pricing : ProductPricing)
    (options : List SallaStoreProductOption) : List SallaStoreProductOption :=
  options.map (fun o =>
    if o.option_code = productOptionCode then applyPricingToOption pricing o else o)

/-- The per-item pricing loop of checkBalanceAndUpdatePricing: refresh each item
from the minimum wholesale value, accumulate the total cost, and propagate the
first pricing failure as a thrown error, aborting the remaining items. -/
def updateItemsPricing (pricing : String → Except String ProductPricing) :
    List MerchantVoucherPurchaseItem → List SallaStoreProductOption →
    Except String (List MerchantVoucherPurchaseItem × List SallaStoreProductOption × ℚ)
  | [], options => Except.ok ([], options, 0)
  | item :: rest, options =>
    match pricing item.product_option_code with
    | Except.error e => Except.error e
    | Except.ok p =>
      let newWholesalePrice := p.min_wholesale_value
      let item := { item with
        unit_wholesale_price := newWholesalePrice
        total_wholesale_cost := (item.quantity_ordered : ℚ) * newWholesalePrice }
      let options := updateMatchingOptions item.product_option_code p options
      match updateItemsPricing pricing rest options with
      | Except.error e => Except.error e
      | Except.ok (items, options, total) =>
        Except.ok (item :: items, options, item.total_wholesale_cost + total)

/-- Source checkBalanceAndUpdatePricing: authenticate, convert the plafond to
cents, refresh all item prices (a failure aborts the check), persist the total
on the purchase, reset a FAILED purchase to PENDING clearing its error, and
compare the balance with the total cost in cents. -/
def checkBalanceAndUpdatePricing (env : BalanceEnv) (purchase : MerchantVoucherPurchase)
    (items : List MerchantVoucherPurchaseItem) (options : List SallaStoreProductOption) :
    Except String (MerchantVoucherPurchase × List MerchantVoucherPurchaseItem ×
      List SallaStoreProductOption × BalanceCheckReturn) :=
  match env.auth with
  | Except.error e => Except.error e
  | Except.ok authResult =>
    let balance := authResult.plafond * 100
    match updateItemsPricing env.pricing items options with
    | Except.error e => Except.error e
    | Except.ok (items, options, totalCost) =>
      let purchase := { purchase with
        total_wholesale_cost := totalCost
        ubiqfy_balance_before := some (balance / 100) }
      let purchase :=
        if purchase.status = PurchaseOrderStatus.FAILED then
          { purchase with status := PurchaseOrderStatus.PENDING, error_message := none }
        else purchase
      let totalCostInCents := totalCost * 100
      let sufficient := decide (balance ≥ totalCostInCents)
      Except.ok (purchase, items, options,
        { balance := balance / 100, sufficient := sufficient, totalCost := totalCost })

/-- The per-option loop of updateAllStorePricing over a snapshot of the option
codes: a pricing failure for one option is caught and logged, leaving that
option unchanged and continuing with the rest; a success updates the matching
rows and increments the updated count. -/
def updateAllStorePricingLoop (pricing : String → Except String ProductPricing) :
    List String → List SallaStoreProductOption → List SallaStoreProductOption × ℕ
  | [], options => (options, 0)
  | code :: rest, options =>
    match pricing code with
    | Except.error _ => updateAllStorePricingLoop pricing rest options
    | Except.ok p =>
      let options := updateMatchingOptions code p options
      let result := updateAllStorePricingLoop pricing rest options
      (result.1, result.2 + 1)

/-- Source updateAllStorePricing: iterate over all store option rows, refreshing
each from the pricing lookup, tolerating individual failures. -/
def updateAllStorePricing (pricing : String → Except String ProductPricing)
    (options : List SallaStoreProductOption) : List SallaStoreProductOption × ℕ :=
  updateAllStorePricingLoop pricing (options.map (fun o => o.option_code)) options

/-- Source updatePurchaseStatus: set the status and stamp the processing
start/completion timestamps for the corresponding statuses. -/
def updatePurchaseStatus (now : ℕ) (purchase : MerchantVoucherPurchase)
    (status : PurchaseOrderStatus) : MerchantVoucherPurchase :=
  let p := { purchase with status := status }
  if status = PurchaseOrderStatus.PROCESSING then
    { p with processing_started_at := some now }
  else if status = PurchaseOrderStatus.COMPLETED ∨
      status = PurchaseOrderStatus.PARTIALLY_COMPLETED ∨
      status = PurchaseOrderStatus.FAILED then
    { p with processing_completed_at := some now }
  else p

/-- Number of vouchers in the list with the given status. -/
def countStatus (s : VoucherStatus) (vouchers : List MerchantVoucherPurchaseDetail) : ℕ :=
  vouchers.countP (fun v => decide (v.status = s))

/-- Source updatePurchaseCounts: store the GENERATED and FAILED counts on the
purchase row; it does not touch the status field. -/
def updatePurchaseCounts (purchase : MerchantVoucherPurchase)
    (vouchers : List MerchantVoucherPurchaseDetail) : MerchantVoucherPurchase :=
  { purchase with
    total_vouchers_generated := countStatus VoucherStatus.GENERATED vouchers
    total_vouchers_failed := countStatus VoucherStatus.FAILED vouchers }

/-- Source retryFailedVouchers: re-run the executor for every voucher currently
FAILED with retry_count below 3 (per-voucher errors are caught and logged),
then refresh the stored counts. No balance or pricing pass is involved. -/
def retryFailedVouchers (venv : MerchantVoucherPurchaseDetail → VoucherEnv)
    (purchase : MerchantVoucherPurchase) (vouchers : List MerchantVoucherPurchaseDetail) :
    MerchantVoucherPurchase × List MerchantVoucherPurchaseDetail :=
  let vouchers := vouchers.map (fun v =>
    if v.status = VoucherStatus.FAILED ∧ v.retry_count < 3 then
      (processSingleVoucher (venv v) v).voucher
    else v)
  (updatePurchaseCounts purchase vouchers, vouchers)

/-- Environment of the Salla publishing step: the outcome of posting a list of
codes to the digital-codes endpoint of a product, and the clock reading. -/
structure PublishEnv where
  sallaPost : String → List String → Except String Unit
  now : ℕ

/-- The SQL filter reference IN codes used by flagVouchersAsSyncedToSalla. -/
def referenceIn (codes : List String) (v : MerchantVoucherPurchaseDetail) : Bool :=
  match v.reference with
  | some r => codes.contains r
  | none => false

/-- Source flagVouchersAsSyncedToSalla, restricted to the rows of one purchase:
set the salla_synced flag and timestamp on every voucher whose reference is in
the attached code list. -/
def flagVouchersAsSyncedToSalla (now : ℕ) (codes : List String)
    (vouchers : List MerchantVoucherPurchaseDetail) : List MerchantVoucherPurchaseDetail :=
  vouchers.map (fun v =>
    if referenceIn codes v then { v with salla_synced := true, salla_synced_at := some now }
    else v)

/-- Source refreshStockLevels: add the published quantity to the stock of every
option row linked to the Salla product. -/
def refreshStockLevels (now : ℕ) (sallaProductId : String) (quantityAdded : ℕ)
    (options : List SallaStoreProductOption) : List SallaStoreProductOption :=
  options.map (fun o =>
    if o.salla_product_id = some sallaProductId then
      { o with
        stock_quantity := some ((o.stock_quantity.getD 0) + quantityAdded)
        last_stock_update := some now }
    else o)

/-- Source attachVoucherCodesToSallaProduct: post the codes to the Salla
digital-codes endpoint; on success flag the vouchers as synced and bump the
stock counters, on failure re-throw. -/
def attachVoucherCodesToSallaProduct (env : PublishEnv) (sallaProductId : String)
    (voucherCodes : List String) (vouchers : List MerchantVoucherPurchaseDetail)
    (options : List SallaStoreProductOption) :
    Except String (List MerchantVoucherPurchaseDetail × List SallaStoreProductOption) :=
  match env.sallaPost sallaProductId voucherCodes with
  | Except.error e => Except.error e
  | Except.ok _ =>
    let vouchers := flagVouchersAsSyncedToSalla env.now voucherCodes vouchers
    let options := refreshStockLevels env.now sallaProductId voucherCodes.length options
    Except.ok (vouchers, options)

/-- Insertion into the Map of codes grouped by Salla product id, preserving the
insertion order of the source Map. -/
def insertCode (m : List (String × List String)) (productId : String) (code : String) :
    List (String × List String) :=
  match m with
  | [] => [(productId, [code])]
  | (k, cs) :: rest =>
    if k = productId then (k, cs ++ [code]) :: rest
    else (k, cs) :: insertCode rest productId code

/-- The findOne lookup of a store option row by option_code. -/
def findStoreOption (options : List SallaStoreProductOption) (code : String) :
    Option SallaStoreProductOption :=
  options.find? (fun o => decide (o.option_code = code))

/-- One iteration of the grouping loop of attachAllVoucherCodesToSalla: a
voucher with a truthy reference whose option row has a truthy salla_product_id
contributes its reference code to that product group. -/
def groupStep (options : List SallaStoreProductOption)
    (m : List (String × List String)) (v : MerchantVoucherPurchaseDetail) :
    List (String × List String) :=
  if jsStrTruthy v.reference then
    match findStoreOption options v.purchaseItem.product_option_code with
    | some storeProductOption =>
      if jsStrTruthy storeProductOption.salla_product_id then
        insertCode m (storeProductOption.salla_product_id.getD "") (v.reference.getD "")
      else m
    | none => m
  else m

/-- The grouping loop of attachAllVoucherCodesToSalla over the generated
vouchers. -/
def groupVouchersByProduct (options : List SallaStoreProductOption)
    (generatedVouchers : List MerchantVoucherPurchaseDetail) : List (String × List String) :=
  generatedVouchers.foldl (groupStep options) []

/-- The attachment loop of attachAllVoucherCodesToSalla: post each product group
in order; the first failing group aborts the rest. The successfully posted
groups are returned as a trace (the trace of a run that ends in an error is
dropped with the error). -/
def attachGroups (env : PublishEnv) :
    List (String × List String) → List MerchantVoucherPurchaseDetail →
    List SallaStoreProductOption →
    Except String (List MerchantVoucherPurchaseDetail × List SallaStoreProductOption ×
      List (String × List String))
  | [], vouchers, options => Except.ok (vouchers, options, [])
  | (productId, codes) :: rest, vouchers, options =>
    match attachVoucherCodesToSallaProduct env productId codes vouchers options with
    | Except.error e => Except.error e
    | Except.ok (vouchers, options) =>
      match attachGroups env rest vouchers options with
      | Except.error e => Except.error e
      | Except.ok (vouchers, options, posts) =>
        Except.ok (vouchers, options, (productId, codes) :: posts)

/-- Source attachAllVoucherCodesToSalla: select every voucher of the purchase
whose status is GENERATED (there is no filter on the salla_synced flag), return
early when there are none, group the selected codes by Salla product and post
each group. -/
def attachAllVoucherCodesToSalla (env : PublishEnv)
    (vouchers : List MerchantVoucherPurchaseDetail)
    (options : List SallaStoreProductOption) :
    Except String (List MerchantVoucherPurchaseDetail × List SallaStoreProductOption ×
      List (String × List String)) :=
  let generatedVouchers := vouchers.filter (fun v => decide (v.status = VoucherStatus.GENERATED))
  if generatedVouchers.length = 0 then Except.ok (vouchers, options, [])
  else attachGroups env (groupVouchersByProduct options generatedVouchers) vouchers options

/-- Environment of one processPurchaseOrder run: the balance-check environment,
the per-voucher executor environment, the outcome of the post-run balance
snapshot authentication, the publishing environment and the clock. -/
structure OrderEnv where
  balance : BalanceEnv
  venv : MerchantVoucherPurchaseDetail → VoucherEnv
  finalAuth : Except String AuthResult
  publish : PublishEnv
  now : ℕ

/-- The per-voucher loop of processPurchaseOrder applied to the voucher table of
the purchase: each PENDING voucher is run through the executor and persisted;
the others are untouched. -/
def processPendingVouchers (venv : MerchantVoucherPurchaseDetail → VoucherEnv)
    (vouchers : List MerchantVoucherPurchaseDetail) : List MerchantVoucherPurchaseDetail :=
  vouchers.map (fun v =>
    if v.status = VoucherStatus.PENDING then (processSingleVoucher (venv v) v).voucher
    else v)

/-- The successCount accumulated by the loop of processPurchaseOrder: the number
of PENDING vouchers whose executor call returned without throwing. -/
def callSuccessCount (venv : MerchantVoucherPurchaseDetail → VoucherEnv)
    (vouchers : List MerchantVoucherPurchaseDetail) : ℕ :=
  (vouchers.filter (fun v => decide (v.status = VoucherStatus.PENDING))).countP
    (fun v => ((processSingleVoucher (venv v) v).thrown).isNone)

/-- The failureCount accumulated by the loop of processPurchaseOrder: the number
of PENDING vouchers whose executor call threw. -/
def callFailureCount (venv : MerchantVoucherPurchaseDetail → VoucherEnv)
    (vouchers : List MerchantVoucherPurchaseDetail) : ℕ :=
  (vouchers.filter (fun v => decide (v.status = VoucherStatus.PENDING))).countP
    (fun v => ((processSingleVoucher (venv v) v).thrown).isSome)

/-- Full outcome of one processPurchaseOrder run: the final purchase row, item
rows, voucher rows and option rows, the trace of Salla posts performed by the
publishing step, and the re-thrown error when the run threw. -/
structure OrderRunResult where
  purchase : MerchantVoucherPurchase
  items : List MerchantVoucherPurchaseItem
  vouchers : List MerchantVoucherPurchaseDetail
  options : List SallaStoreProductOption
  posts : List (String × List String)
  thrown : Option String
deriving DecidableEq

/-- Source processPurchaseOrder: run the balance and pricing check, fail the
order on insufficient balance, otherwise mark it PROCESSING, execute every
PENDING voucher counting thrown and non-thrown executor calls, snapshot the
post-run balance, derive the terminal status from those call counts, store the
GENERATED/FAILED tallies, and when at least one call succeeded hand the codes
to the Salla publisher, whose failure is swallowed. Any error escaping the
outer try block records a Processing failed message and sets FAILED. -/
def processPurchaseOrder (env : OrderEnv) (purchase : MerchantVoucherPurchase)
    (items : List MerchantVoucherPurchaseItem)
    (vouchers : List MerchantVoucherPurchaseDetail)
    (options : List SallaStoreProductOption) : OrderRunResult :=
  match checkBalanceAndUpdatePricing env.balance purchase items options with
  | Except.error msg =>
    let p := { purchase with error_message := some ("Processing failed: " ++ msg) }
    let p := updatePurchaseStatus env.now p PurchaseOrderStatus.FAILED
    { purchase := p, items := items, vouchers := vouchers, options := options,
      posts := [], thrown := some msg }
  | Except.ok (p0, items2, options2, check) =>
    if check.sufficient = false then
      let p := updatePurchaseStatus env.now p0 PurchaseOrderStatus.FAILED
      let p := { p with error_message := some ("Insufficient balance. Required: " ++
        toString check.totalCost ++ ", Available: " ++ toString check.balance) }
      let msg := "Insufficient balance to process purchase"
      let p := { p with error_message := some ("Processing failed: " ++ msg) }
      let p := updatePurchaseStatus env.now p PurchaseOrderStatus.FAILED
      { purchase := p, items := items2, vouchers := vouchers, options := options2,
        posts := [], thrown := some msg }
    else
      let p := updatePurchaseStatus env.now p0 PurchaseOrderStatus.PROCESSING
      let processed := processPendingVouchers env.venv vouchers
      let successCount := callSuccessCount env.venv vouchers
      let failureCount := callFailureCount env.venv vouchers
      match env.finalAuth with
      | Except.error msg =>
        let p := { p with error_message := some ("Processing failed: " ++ msg) }
        let p := updatePurchaseStatus env.now p PurchaseOrderStatus.FAILED
        { purchase := p, items := items2, vouchers := processed, options := options2,
          posts := [], thrown := some msg }
      | Except.ok authResult =>
        let p := { p with ubiqfy_balance_after := some authResult.plafond }
        let finalStatus :=
          if failureCount = 0 then PurchaseOrderStatus.COMPLETED
          else if successCount > 0 then PurchaseOrderStatus.PARTIALLY_COMPLETED
          else PurchaseOrderStatus.FAILED
        let p := updatePurchaseStatus env.now p finalStatus
        let p := updatePurchaseCounts p processed
        if successCount > 0 then
          match attachAllVoucherCodesToSalla env.publish processed options2 with
          | Except.error _ =>
            { purchase := p, items := items2, vouchers := processed, options := options2,
              posts := [], thrown := none }
          | Except.ok (vouchers3, options3, posts) =>
            let p := { p with
              success_message := some (toString successCount ++
                " vouchers generated and synced to Salla. View updated stock levels.")
              navigation_url := some ("/clients/stock/" ++ p.salla_store_id) }
            { purchase := p, items := items2, vouchers := vouchers3, options := options3,
              posts := posts, thrown := none }
        else
          { purchase := p, items := items2, vouchers := processed, options := options2,
            posts := [], thrown := none }

/-- Observable part of a publisher run: the final option rows and the trace of
posts, dropping the voucher rows. -/
def attachObservable (r : Except String (List MerchantVoucherPurchaseDetail ×
    List SallaStoreProductOption × List (String × List String))) :
    Except String (List SallaStoreProductOption × List (String × List String)) :=
  r.map (fun x => (x.2.1, x.2.2))

/-- The posts performed by a successful publisher run. -/
def attachPosts (r : Except String (List MerchantVoucherPurchaseDetail ×
    List SallaStoreProductOption × List (String × List String))) :
    List (String × List String) :=
  match r with
  | Except.ok x => x.2.2
  | Except.error _ => []

/-- The stock counters after a successful publisher run. -/
def attachStocks (r : Except String (List MerchantVoucherPurchaseDetail ×
    List SallaStoreProductOption × List (String × List String))) :
    List (Option ℕ) :=
  match r with
  | Except.ok x => x.2.1.map (fun o => o.stock_quantity)
  | Except.error _ => []

/-- Overwrite the published-to-Salla flag and timestamp of a voucher row. -/
def setSallaFlags (b : Bool) (t : Option ℕ) (v : MerchantVoucherPurchaseDetail) :
    MerchantVoucherPurchaseDetail :=
  { v with salla_synced := b, salla_synced_at := t }

/-- Sample pricing band used by the concrete runs below. -/
def samplePricing : ProductPricing :=
  { product_option_code := "OPT1", min_wholesale_value := 5, max_wholesale_value := 5,
    min_face_value := 10, max_face_value := 10 }

/-- Sample authentication result with a plafond of 50 currency units. -/
def sampleAuth : AuthResult :=
  { token := "tok-1", baseUrl := "https://api", plafond := 50 }

/-- Sample line item: one unit of option OPT1 with face value 10. -/
def sampleItem : MerchantVoucherPurchaseItem :=
  { product_option_code := "OPT1", quantity_ordered := 1, unit_face_value := some 10,
    unit_wholesale_price := 4, total_wholesale_cost := 4 }

/-- Sample PENDING voucher unit. -/
def samplePendingVoucher : MerchantVoucherPurchaseDetail :=
  { external_id := "EXT-1", purchase_id := "PUR-1", status := VoucherStatus.PENDING,
    retry_count := 0, purchaseItem := sampleItem }

/-- Sample purchase order in PENDING state. -/
def samplePurchase : MerchantVoucherPurchase :=
  { id := "PUR-1", salla_store_id := "STORE-1", status := PurchaseOrderStatus.PENDING }

/-- Issuer business rejection: the HTTP call parses but OperationSucceeded is false. -/
def rejectionResponse : DoTransactionResponse :=
  { OperationSucceeded := false, ErrorText := some "Issuer rejected" }

/-- Issuer success response carrying a reference code. -/
def successResponse : DoTransactionResponse :=
  { OperationSucceeded := true,
    PaymentResultData := some { Reference := some "CODE2", SerialNumber := some "SN-2" } }

/-- Executor environment in which the issuer always answers with a parsed
business rejection. -/
def rejectionVoucherEnv : VoucherEnv :=
  { purchaseFound := true, auth := Except.ok sampleAuth,
    fetch := fun _ => FetchOutcome.parsed rejectionResponse, startTime := 10, endTime := 30 }

/-- Executor environment in which the issuer always succeeds. -/
def successVoucherEnv : VoucherEnv :=
  { purchaseFound := true, auth := Except.ok sampleAuth,
    fetch := fun _ => FetchOutcome.parsed successResponse, startTime := 10, endTime := 30 }

/-- Balance environment with a plafond of 50 and pricing lookups that always
succeed with samplePricing. -/
def sampleBalanceEnv : BalanceEnv :=
  { auth := Except.ok sampleAuth, pricing := fun _ => Except.ok samplePricing }

/-- Publishing environment in which every Salla post succeeds. -/
def samplePublishEnv : PublishEnv :=
  { sallaPost := fun _ _ => Except.ok (), now := 99 }

/-- Order environment: sufficient balance, issuer rejects every unit with a
parsed OperationSucceeded = false response, publishing succeeds. -/
def rejectionOrderEnv : OrderEnv :=
  { balance := sampleBalanceEnv, venv := fun _ => rejectionVoucherEnv,
    finalAuth := Except.ok sampleAuth, publish := samplePublishEnv, now := 77 }

/-- A GENERATED voucher already flagged as published to Salla. -/
def syncedVoucher : MerchantVoucherPurchaseDetail :=
  { external_id := "EXT-2", purchase_id := "PUR-1", status := VoucherStatus.GENERATED,
    retry_count := 0, reference := some "CODE1", salla_synced := true,
    salla_synced_at := some 5, purchaseItem := sampleItem }

/-- Store option row linking OPT1 to Salla product P1 with stock 5. -/
def sampleOption : SallaStoreProductOption :=
  { option_code := "OPT1", salla_product_id := some "P1", stock_quantity := some 5 }

/-- A GENERATED voucher of the partially completed purchase of the retry scenario. -/
def generatedVoucher : MerchantVoucherPurchaseDetail :=
  { external_id := "EXT-3", purchase_id := "PUR-3", status := VoucherStatus.GENERATED,
    retry_count := 0, reference := some "CODE3", purchaseItem := sampleItem }

/-- The single FAILED voucher of the retry scenario, with retry_count 1. -/
def failedVoucher : MerchantVoucherPurchaseDetail :=
  { external_id := "EXT-4", purchase_id := "PUR-3", status := VoucherStatus.FAILED,
    retry_count := 1, error_text := some "HTTP 500: Server Error",
    purchaseItem := sampleItem }

/-- The PARTIALLY_COMPLETED purchase of the retry scenario. -/
def partialPurchase : MerchantVoucherPurchase :=
  { id := "PUR-3", salla_store_id := "STORE-1", status := PurchaseOrderStatus.PARTIALLY_COMPLETED,
    total_vouchers_generated := 1, total_vouchers_failed := 1 }

/-- A purchase that previously FAILED for a reason unrelated to balance. -/
def failedPurchaseOtherReason : MerchantVoucherPurchase :=
  { id := "PUR-2", salla_store_id := "STORE-1", status := PurchaseOrderStatus.FAILED,
    error_message := some "Processing failed: issuer timeout" }

/-- Balance environment whose plafond of 1 cannot cover the sample item cost. -/
def lowBalanceEnv : BalanceEnv :=
  { auth := Except.ok { token := "tok-1", baseUrl := "https://api", plafond := 1 },
    pricing := fun _ => Except.ok samplePricing }

/-- Balance environment whose pricing lookup fails for option code BAD and
succeeds for every other code. -/
def failingPricingEnv : BalanceEnv :=
  { auth := Except.ok sampleAuth,
    pricing := fun c => if c = "BAD" then Except.error "pricing boom" else Except.ok samplePricing }

/-- Line item referencing the failing option code BAD. -/
def badItem : MerchantVoucherPurchaseItem :=
  { product_option_code := "BAD", quantity_ordered := 2, unit_face_value := some 10,
    unit_wholesale_price := 3, total_wholesale_cost := 6 }

/-- Store option row for the failing code BAD. -/
def badOption : SallaStoreProductOption :=
  { option_code := "BAD", original_price_usd := 3, wholesale_price_usd := 3 }

/-- Store option row for the succeeding code OPT1. -/
def goodOption : SallaStoreProductOption :=
  { option_code := "OPT1", original_price_usd := 4, wholesale_price_usd := 4 }

/-- The request the executor submits for samplePendingVoucher under the sample
authentication. -/
def sampleSentRequest : DoTransactionRequest :=
  buildDoTransactionRequest "tok-1"
    { samplePendingVoucher with
      status := VoucherStatus.PROCESSING
      request_sent_at := some 10 }

/-- Expected purchase row after the sample balance check. -/
def expectedBalancePurchase : MerchantVoucherPurchase :=
  { samplePurchase with total_wholesale_cost := 5, ubiqfy_balance_before := some 50 }

/-- Expected item row after the sample balance check. -/
def expectedBalanceItem : MerchantVoucherPurchaseItem :=
  { sampleItem with unit_wholesale_price := 5, total_wholesale_cost := 5 }

/-- Expected return value of the sample balance check. -/
def expectedBalanceReturn : BalanceCheckReturn :=
  { balance := 50, sufficient := true, totalCost := 5 }

/-- Expected purchase row after the low-balance re-check of a FAILED order. -/
def expectedResetPurchase : MerchantVoucherPurchase :=
  { failedPurchaseOtherReason with
    status := PurchaseOrderStatus.PENDING
    total_wholesale_cost := 5
    ubiqfy_balance_before := some 1
    error_message := none }

/-- Expected return value of the low-balance re-check. -/
def lowBalanceReturn : BalanceCheckReturn :=
  { balance := 1, sufficient := false, totalCost := 5 }

theorem handleDoTransactionError_fields (v : MerchantVoucherPurchaseDetail)
    (msg : String) (rt now : ℕ) :
    (handleDoTransactionError v msg rt now).status = VoucherStatus.FAILED ∧
    (handleDoTransactionError v msg rt now).retry_count = v.retry_count + 1 ∧
    (handleDoTransactionError v msg rt now).error_text =
      some (jsStrOrDefault msg "API call failed") ∧
    (handleDoTransactionError v msg rt now).response_received_at = some now ∧
    (handleDoTransactionError v msg rt now).response_time_ms = some rt ∧
    (handleDoTransactionError v msg rt now).operation_succeeded = some false ∧
    (handleDoTransactionError v msg rt now).processed_at = some now :=
  ⟨rfl, rfl, rfl, rfl, rfl, rfl, rfl⟩

theorem handleDoTransactionResponse_status (v : MerchantVoucherPurchaseDetail)
    (resp : DoTransactionResponse) (rt now : ℕ) :
    (handleDoTransactionResponse v resp rt now).status =
      (if resp.OperationSucceeded then VoucherStatus.GENERATED else VoucherStatus.FAILED) := by
  unfold handleDoTransactionResponse
  cases h : resp.OperationSucceeded
  · simp [h]
  · cases hp : resp.PaymentResultData <;> simp [h, hp]

theorem handleDoTransactionResponse_timing (v : MerchantVoucherPurchaseDetail)
    (resp : DoTransactionResponse) (rt now : ℕ) :
    (handleDoTransactionResponse v resp rt now).response_received_at = some now ∧
    (handleDoTransactionResponse v resp rt now).response_time_ms = some rt := by
  unfold handleDoTransactionResponse
  cases h : resp.OperationSucceeded
  · simp [h]
  · cases hp : resp.PaymentResultData <;> simp [h, hp]

/-- C8: on a transport or HTTP failure of the issuance call the unit is
persisted FAILED with its retry count incremented by one and the error message
in error_text, together with the response-received timestamp and elapsed
latency; on a parsed response (whatever OperationSucceeded is) the same
timestamp and latency fields are persisted as well. -/
theorem c8_failure_and_response_persistence :
    (∀ (v : MerchantVoucherPurchaseDetail) (msg : String) (rt now : ℕ),
      (handleDoTransactionError v msg rt now).status = VoucherStatus.FAILED ∧
      (handleDoTransactionError v msg rt now).retry_count = v.retry_count + 1 ∧
      (handleDoTransactionError v msg rt now).error_text =
        some (jsStrOrDefault msg "API call failed") ∧
      (handleDoTransactionError v msg rt now).response_received_at = some now ∧
      (handleDoTransactionError v msg rt now).response_time_ms = some rt) ∧
    (∀ (v : MerchantVoucherPurchaseDetail) (resp : DoTransactionResponse) (rt now : ℕ),
      (handleDoTransactionResponse v resp rt now).response_received_at = some now ∧
      (handleDoTransactionResponse v resp rt now).response_time_ms = some rt) := by
  constructor
  · intro v msg rt now
    exact ⟨rfl, rfl, rfl, rfl, rfl⟩
  · intro v resp rt now
    exact handleDoTransactionResponse_timing v resp rt now

/-- C10: whatever the environment does, a processSingleVoucher call leaves the
persisted unit in status GENERATED or FAILED, never in PROCESSING. -/
theorem c10_executor_never_leaves_processing (env : VoucherEnv)
    (voucher : MerchantVoucherPurchaseDetail) :
    (processSingleVoucher env voucher).voucher.status = VoucherStatus.GENERATED ∨
    (processSingleVoucher env voucher).voucher.status = VoucherStatus.FAILED := by
  simp only [processSingleVoucher]
  split
  · split
    · exact Or.inr rfl
    · split
      · exact Or.inr rfl
      · exact Or.inr rfl
      · rename_i resp heq
        cases hs : resp.OperationSucceeded
        · exact Or.inr ((handleDoTransactionResponse_status _ _ _ _).trans (by simp [hs]))
        · exact Or.inl ((handleDoTransactionResponse_status _ _ _ _).trans (by simp [hs]))
  · exact Or.inr rfl

/-- C7: whenever processSingleVoucher submits a request to the issuer, that
request carries the external id of the unit as idempotency key, the fixed
product type code Voucher, the product option code of the item, the unit face
value of the item (with the JavaScript zero fallback) as Amount, and
Quantity 1 — never more than one code per call. -/
theorem c7_issuance_request_shape (env : VoucherEnv)
    (voucher : MerchantVoucherPurchaseDetail) (req : DoTransactionRequest)
    (h : (processSingleVoucher env voucher).sentRequest = some req) :
    req.ExternalId = voucher.external_id ∧
    req.ProductTypeCode = "Voucher" ∧
    req.ProductOptionCode = voucher.purchaseItem.product_option_code ∧
    req.Amount = (voucher.purchaseItem.unit_face_value).getD 0 ∧
    req.Quantity = 1 := by
  simp only [processSingleVoucher] at h
  split at h
  · split at h
    · simp at h
    · split at h <;> simp only [Option.some.injEq] at h <;>
        (subst h; exact ⟨rfl, rfl, rfl, rfl, rfl⟩)
  · simp at h

/-- Concrete instantiation of c7_issuance_request_shape: the request built for
samplePendingVoucher in the always-succeeding environment. -/
theorem c7_issuance_request_shape_witness :
    sampleSentRequest.ExternalId = samplePendingVoucher.external_id ∧
    sampleSentRequest.ProductTypeCode = "Voucher" ∧
    sampleSentRequest.ProductOptionCode =
      samplePendingVoucher.purchaseItem.product_option_code ∧
    sampleSentRequest.Amount = (samplePendingVoucher.purchaseItem.unit_face_value).getD 0 ∧
    sampleSentRequest.Quantity = 1 :=
  c7_issuance_request_shape successVoucherEnv samplePendingVoucher sampleSentRequest rfl

theorem updateItemsPricing_spec (pricing : String → Except String ProductPricing) :
    ∀ (items : List MerchantVoucherPurchaseItem) (options : List SallaStoreProductOption)
      (items2 : List MerchantVoucherPurchaseItem) (options2 : List SallaStoreProductOption)
      (total : ℚ),
      updateItemsPricing pricing items options = Except.ok (items2, options2, total) →
      total = (items2.map (fun i => i.total_wholesale_cost)).sum ∧
      items2.map (fun i => (i.product_option_code, i.quantity_ordered)) =
        items.map (fun i => (i.product_option_code, i.quantity_ordered)) ∧
      ∀ i ∈ items2, ∃ p, pricing i.product_option_code = Except.ok p ∧
        i.unit_wholesale_price = p.min_wholesale_value ∧
        i.total_wholesale_cost = (i.quantity_ordered : ℚ) * p.min_wholesale_value := by
  intro items
  induction items with
  | nil =>
    intro options items2 options2 total h
    simp only [updateItemsPricing, Except.ok.injEq, Prod.mk.injEq] at h
    obtain ⟨h1, _, h3⟩ := h
    subst h1; subst h3
    simp
  | cons item rest ih =>
    intro options items2 options2 total h
    simp only [updateItemsPricing] at h
    cases hp : pricing item.product_option_code with
    | error e => simp only [hp] at h; exact Except.noConfusion h
    | ok p =>
      simp only [hp] at h
      cases hr : updateItemsPricing pricing rest
          (updateMatchingOptions item.product_option_code p options) with
      | error e => simp only [hr] at h; exact Except.noConfusion h
      | ok triple =>
        obtain ⟨itemsR, optionsR, totalR⟩ := triple
        simp only [hr] at h
        simp only [Except.ok.injEq, Prod.mk.injEq] at h
        obtain ⟨h1, _, h3⟩ := h
        obtain ⟨ht, hmap, hall⟩ := ih _ _ _ _ hr
        subst h1; subst h3
        refine ⟨?_, ?_, ?_⟩
        · simp [ht]
        · simp [hmap]
        · intro i hi
          rcases List.mem_cons.mp hi with hi | hi
          · subst hi
            exact ⟨p, hp, rfl, rfl⟩
          · exact hall i hi

/-- C3: on a completed balance check, the returned balance is the plafond in
currency units, the returned totalCost is the sum of the refreshed item costs,
each refreshed item carries quantity times the minimum wholesale value from the
pricing lookup while codes and quantities are preserved, and sufficient holds
exactly when the balance in minor units covers the total cost in minor units. -/
theorem c3_balance_check_shape (env : BalanceEnv) (purchase : MerchantVoucherPurchase)
    (items : List MerchantVoucherPurchaseItem) (options : List SallaStoreProductOption)
    (a : AuthResult)
    (out : MerchantVoucherPurchase × List MerchantVoucherPurchaseItem ×
      List SallaStoreProductOption × BalanceCheckReturn)
    (hauth : env.auth = Except.ok a)
    (h : checkBalanceAndUpdatePricing env purchase items options = Except.ok out) :
    out.2.2.2.balance = a.plafond ∧
    out.2.2.2.totalCost = ((out.2.1).map (fun i => i.total_wholesale_cost)).sum ∧
    (out.2.1).map (fun i => (i.product_option_code, i.quantity_ordered)) =
      items.map (fun i => (i.product_option_code, i.quantity_ordered)) ∧
    (∀ i ∈ out.2.1, ∃ p, env.pricing i.product_option_code = Except.ok p ∧
      i.unit_wholesale_price = p.min_wholesale_value ∧
      i.total_wholesale_cost = (i.quantity_ordered : ℚ) * p.min_wholesale_value) ∧
    (out.2.2.2.sufficient = true ↔ a.plafond * 100 ≥ out.2.2.2.totalCost * 100) := by
  unfold checkBalanceAndUpdatePricing at h
  rw [hauth] at h
  cases hu : updateItemsPricing env.pricing items options with
  | error e => rw [hu] at h; simp at h
  | ok triple =>
    obtain ⟨items2, options2, totalCost⟩ := triple
    rw [hu] at h
    obtain ⟨ht, hmap, hall⟩ := updateItemsPricing_spec env.pricing items options
      items2 options2 totalCost hu
    simp only [Except.ok.injEq] at h
    subst h
    refine ⟨?_, ?_, ?_, ?_, ?_⟩
    · show a.plafond * 100 / 100 = a.plafond
      exact mul_div_cancel_right₀ a.plafond (by norm_num)
    · exact ht
    · exact hmap
    · exact hall
    · show decide (a.plafond * 100 ≥ totalCost * 100) = true ↔ _
      simp

/-- Concrete instantiation of c3_balance_check_shape on the sample order. -/
theorem c3_balance_check_shape_witness :
    expectedBalanceReturn.balance = sampleAuth.plafond ∧
    expectedBalanceReturn.totalCost =
      ([expectedBalanceItem].map (fun i => i.total_wholesale_cost)).sum ∧
    [expectedBalanceItem].map (fun i => (i.product_option_code, i.quantity_ordered)) =
      [sampleItem].map (fun i => (i.product_option_code, i.quantity_ordered)) ∧
    (∀ i ∈ [expectedBalanceItem], ∃ p,
      sampleBalanceEnv.pricing i.product_option_code = Except.ok p ∧
      i.unit_wholesale_price = p.min_wholesale_value ∧
      i.total_wholesale_cost = (i.quantity_ordered : ℚ) * p.min_wholesale_value) ∧
    (expectedBalanceReturn.sufficient = true ↔
      sampleAuth.plafond * 100 ≥ expectedBalanceReturn.totalCost * 100) :=
  c3_balance_check_shape sampleBalanceEnv samplePurchase [sampleItem] [] sampleAuth
    (expectedBalancePurchase, [expectedBalanceItem], [], expectedBalanceReturn) rfl
    (by norm_num [checkBalanceAndUpdatePricing, updateItemsPricing, updateMatchingOptions,
      sampleBalanceEnv, samplePurchase, sampleItem, sampleAuth, samplePricing,
      expectedBalancePurchase, expectedBalanceItem, expectedBalanceReturn])

/-- C5 is refuted by the code: an order FAILED for a reason unrelated to
balance is reset to PENDING with its stored error cleared even though the
re-check finds the balance still insufficient. -/
theorem c5_counterexample :
    failedPurchaseOtherReason.error_message = some "Processing failed: issuer timeout" ∧
    (checkBalanceAndUpdatePricing lowBalanceEnv failedPurchaseOtherReason [sampleItem] []).map
        (fun out => (out.1.status, out.1.error_message, out.2.2.2.sufficient)) =
      Except.ok (PurchaseOrderStatus.PENDING, none, false) := by
  constructor
  · rfl
  · norm_num [checkBalanceAndUpdatePricing, updateItemsPricing, updateMatchingOptions,
      lowBalanceEnv, failedPurchaseOtherReason, sampleItem, samplePricing, Except.map]

/-- C5 amended: whenever checkBalanceAndUpdatePricing completes (authentication
and every pricing lookup succeed), an order currently FAILED — for any reason —
is reset to PENDING with its error cleared, before and regardless of the
sufficiency comparison; an order in any other status keeps its status and
error. When the check aborts early, no reset happens. -/
theorem c5_amended_reset_on_completed_recheck (env : BalanceEnv)
    (purchase : MerchantVoucherPurchase) (items : List MerchantVoucherPurchaseItem)
    (options : List SallaStoreProductOption)
    (out : MerchantVoucherPurchase × List MerchantVoucherPurchaseItem ×
      List SallaStoreProductOption × BalanceCheckReturn)
    (h : checkBalanceAndUpdatePricing env purchase items options = Except.ok out) :
    (purchase.status = PurchaseOrderStatus.FAILED →
      out.1.status = PurchaseOrderStatus.PENDING ∧ out.1.error_message = none) ∧
    (purchase.status ≠ PurchaseOrderStatus.FAILED →
      out.1.status = purchase.status ∧ out.1.error_message = purchase.error_message) := by
  unfold checkBalanceAndUpdatePricing at h
  cases ha : env.auth with
  | error e => simp only [ha] at h; exact Except.noConfusion h
  | ok a =>
    simp only [ha] at h
    cases hu : updateItemsPricing env.pricing items options with
    | error e => simp only [hu] at h; exact Except.noConfusion h
    | ok triple =>
      obtain ⟨items2, options2, totalCost⟩ := triple
      simp only [hu, Except.ok.injEq] at h
      subst h
      constructor
      · intro hs
        simp [hs]
      · intro hs
        simp [hs]

/-- Concrete instantiation of c5_amended_reset_on_completed_recheck: the FAILED
order with a non-balance error is reset by the completing, still-insufficient
re-check. -/
theorem c5_amended_reset_witness :
    (failedPurchaseOtherReason.status = PurchaseOrderStatus.FAILED →
      expectedResetPurchase.status = PurchaseOrderStatus.PENDING ∧
      expectedResetPurchase.error_message = none) ∧
    (failedPurchaseOtherReason.status ≠ PurchaseOrderStatus.FAILED →
      expectedResetPurchase.status = failedPurchaseOtherReason.status ∧
      expectedResetPurchase.error_message = failedPurchaseOtherReason.error_message) :=
  c5_amended_reset_on_completed_recheck lowBalanceEnv failedPurchaseOtherReason [sampleItem] []
    (expectedResetPurchase, [expectedBalanceItem], [], lowBalanceReturn)
    (by norm_num [checkBalanceAndUpdatePricing, updateItemsPricing, updateMatchingOptions,
      lowBalanceEnv, failedPurchaseOtherReason, sampleItem, samplePricing,
      expectedResetPurchase, expectedBalanceItem, lowBalanceReturn])

theorem updateItemsPricing_aborts (pricing : String → Except String ProductPricing) :
    ∀ (items : List MerchantVoucherPurchaseItem) (options : List SallaStoreProductOption)
      (item : MerchantVoucherPurchaseItem),
      item ∈ items → (pricing item.product_option_code).isOk = false →
      (updateItemsPricing pricing items options).isOk = false := by
  intro items
  induction items with
  | nil => intro options item hmem; exact absurd hmem (List.not_mem_nil item)
  | cons head rest ih =>
    intro options item hmem hfail
    simp only [updateItemsPricing]
    cases hp : pricing head.product_option_code with
    | error e => simp [Except.isOk, Except.toBool]
    | ok p =>
      rcases List.mem_cons.mp hmem with hitem | hitem
      · subst hitem
        rw [hp] at hfail
        simp [Except.isOk, Except.toBool] at hfail
      · have hrec := ih (updateMatchingOptions head.product_option_code p options) item
          hitem hfail
        cases hr : updateItemsPricing pricing rest
            (updateMatchingOptions head.product_option_code p options) with
        | error e => simp [hr, Except.isOk, Except.toBool]
        | ok triple =>
          rw [hr] at hrec
          simp [Except.isOk, Except.toBool] at hrec

theorem updateAllStorePricingLoop_keeps_failed
    (pricing : String → Except String ProductPricing) :
    ∀ (codes : List String) (options : List SallaStoreProductOption)
      (o : SallaStoreProductOption),
      o ∈ options → (pricing o.option_code).isOk = false →
      o ∈ (updateAllStorePricingLoop pricing codes options).1 := by
  intro codes
  induction codes with
  | nil => intro options o hmem _; simpa [updateAllStorePricingLoop] using hmem
  | cons code rest ih =>
    intro options o hmem hfail
    simp only [updateAllStorePricingLoop]
    cases hp : pricing code with
    | error e => exact ih options o hmem hfail
    | ok p =>
      refine ih (updateMatchingOptions code p options) o ?_ hfail
      have hne : o.option_code ≠ code := by
        intro hc
        rw [hc, hp] at hfail
        simp [Except.isOk, Except.toBool] at hfail
      have hmm := List.mem_map_of_mem
        (fun x => if x.option_code = code then applyPricingToOption p x else x) hmem
      simpa [updateMatchingOptions, hne] using hmm

theorem updateAllStorePricingLoop_length (pricing : String → Except String ProductPricing) :
    ∀ (codes : List String) (options : List SallaStoreProductOption),
      ((updateAllStorePricingLoop pricing codes options).1).length = options.length := by
  intro codes
  induction codes with
  | nil => intro options; simp [updateAllStorePricingLoop]
  | cons code rest ih =>
    intro options
    simp only [updateAllStorePricingLoop]
    cases hp : pricing code with
    | error e => exact ih options
    | ok p =>
      have := ih (updateMatchingOptions code p options)
      simpa [updateMatchingOptions] using this

theorem updateAllStorePricingLoop_count (pricing : String → Except String ProductPricing) :
    ∀ (codes : List String) (options : List SallaStoreProductOption),
      (updateAllStorePricingLoop pricing codes options).2 =
        codes.countP (fun c => (pricing c).isOk) := by
  intro codes
  induction codes with
  | nil => intro options; simp [updateAllStorePricingLoop]
  | cons code rest ih =>
    intro options
    simp only [updateAllStorePricingLoop, List.countP_cons]
    cases hp : pricing code with
    | error e =>
      have h2 := ih options
      simp [Except.isOk, Except.toBool, h2]
    | ok p =>
      have h2 := ih (updateMatchingOptions code p options)
      simp [Except.isOk, Except.toBool, h2]

/-- C6: a pricing-lookup failure for an option of the order makes the whole
checkBalanceAndUpdatePricing call abort with an error, while in
updateAllStorePricing a failing option row keeps its stored value, the table
keeps its size, and the updated count equals the number of rows whose lookup
succeeded — the remaining options are still processed. -/
theorem c6_pricing_failure_scope :
    (∀ (env : BalanceEnv) (purchase : MerchantVoucherPurchase)
      (items : List MerchantVoucherPurchaseItem) (options : List SallaStoreProductOption)
      (item : MerchantVoucherPurchaseItem),
      item ∈ items → (env.pricing item.product_option_code).isOk = false →
      (checkBalanceAndUpdatePricing env purchase items options).isOk = false) ∧
    (∀ (pricing : String → Except String ProductPricing)
      (options : List SallaStoreProductOption) (o : SallaStoreProductOption),
      o ∈ options → (pricing o.option_code).isOk = false →
      o ∈ (updateAllStorePricing pricing options).1 ∧
      ((updateAllStorePricing pricing options).1).length = options.length) ∧
    (∀ (pricing : String → Except String ProductPricing)
      (options : List SallaStoreProductOption),
      (updateAllStorePricing pricing options).2 =
        (options.map (fun o => o.option_code)).countP (fun c => (pricing c).isOk)) := by
  refine ⟨?_, ?_, ?_⟩
  · intro env purchase items options item hmem hfail
    unfold checkBalanceAndUpdatePricing
    cases ha : env.auth with
    | error e => simp [Except.isOk, Except.toBool]
    | ok a =>
      have habort := updateItemsPricing_aborts env.pricing items options item hmem hfail
      cases hu : updateItemsPricing env.pricing items options with
      | error e => simp [Except.isOk, Except.toBool]
      | ok triple =>
        rw [hu] at habort
        simp [Except.isOk, Except.toBool] at habort
  · intro pricing options o hmem hfail
    exact ⟨updateAllStorePricingLoop_keeps_failed pricing _ options o hmem hfail,
      updateAllStorePricingLoop_length pricing _ options⟩
  · intro pricing options
    exact updateAllStorePricingLoop_count pricing _ options

/-- Concrete instantiation of c6_pricing_failure_scope: the BAD lookup aborts
the order pass, while the bulk refresh keeps the BAD row, keeps both rows, and
counts exactly the one succeeding row. -/
theorem c6_pricing_failure_scope_witness :
    (checkBalanceAndUpdatePricing failingPricingEnv samplePurchase [badItem] []).isOk = false ∧
    (badOption ∈ (updateAllStorePricing failingPricingEnv.pricing [badOption, goodOption]).1 ∧
      ((updateAllStorePricing failingPricingEnv.pricing [badOption, goodOption]).1).length =
        [badOption, goodOption].length) ∧
    (updateAllStorePricing failingPricingEnv.pricing [badOption, goodOption]).2 =
      ([badOption, goodOption].map (fun o => o.option_code)).countP
        (fun c => (failingPricingEnv.pricing c).isOk) :=
  ⟨c6_pricing_failure_scope.1 failingPricingEnv samplePurchase [badItem] [] badItem
      (by simp) (by decide),
    c6_pricing_failure_scope.2.1 failingPricingEnv.pricing [badOption, goodOption] badOption
      (by simp) (by decide),
    c6_pricing_failure_scope.2.2 failingPricingEnv.pricing [badOption, goodOption]⟩

/-- C9: retryFailedVouchers re-runs the executor exactly for the units
currently FAILED with retry_count below 3 — a FAILED unit with retry_count at
least 3 is left untouched — and it only refreshes the stored counts on the
purchase row: status, total cost, balance snapshot and error message are
unchanged, and no balance check or pricing refresh is involved. -/
theorem c9_retry_scope (venv : MerchantVoucherPurchaseDetail → VoucherEnv)
    (purchase : MerchantVoucherPurchase) (vouchers : List MerchantVoucherPurchaseDetail)
    (i : ℕ) (h : i < vouchers.length) :
    ((retryFailedVouchers venv purchase vouchers).2.length = vouchers.length) ∧
    (∀ h2 : i < (retryFailedVouchers venv purchase vouchers).2.length,
      (retryFailedVouchers venv purchase vouchers).2.get ⟨i, h2⟩ =
        (if (vouchers.get ⟨i, h⟩).status = VoucherStatus.FAILED ∧
            (vouchers.get ⟨i, h⟩).retry_count < 3 then
          (processSingleVoucher (venv (vouchers.get ⟨i, h⟩)) (vouchers.get ⟨i, h⟩)).voucher
        else vouchers.get ⟨i, h⟩)) ∧
    (retryFailedVouchers venv purchase vouchers).1.status = purchase.status ∧
    (retryFailedVouchers venv purchase vouchers).1.total_wholesale_cost =
      purchase.total_wholesale_cost ∧
    (retryFailedVouchers venv purchase vouchers).1.ubiqfy_balance_before =
      purchase.ubiqfy_balance_before ∧
    (retryFailedVouchers venv purchase vouchers).1.error_message = purchase.error_message := by
  refine ⟨by simp [retryFailedVouchers], ?_, rfl, rfl, rfl, rfl⟩
  intro h2
  simp [retryFailedVouchers, List.get_eq_getElem, List.getElem_map]

/-- Concrete instantiation of c9_retry_scope at the single FAILED unit with
retry_count 1. -/
theorem c9_retry_scope_witness :
    ((retryFailedVouchers (fun _ => successVoucherEnv) partialPurchase
        [failedVoucher]).2.length = [failedVoucher].length) ∧
    (∀ h2 : 0 < (retryFailedVouchers (fun _ => successVoucherEnv) partialPurchase
        [failedVoucher]).2.length,
      (retryFailedVouchers (fun _ => successVoucherEnv) partialPurchase
          [failedVoucher]).2.get ⟨0, h2⟩ =
        (if ([failedVoucher].get ⟨0, by decide⟩).status = VoucherStatus.FAILED ∧
            ([failedVoucher].get ⟨0, by decide⟩).retry_count < 3 then
          (processSingleVoucher ((fun _ => successVoucherEnv) ([failedVoucher].get ⟨0, by decide⟩))
            ([failedVoucher].get ⟨0, by decide⟩)).voucher
        else [failedVoucher].get ⟨0, by decide⟩)) ∧
    (retryFailedVouchers (fun _ => successVoucherEnv) partialPurchase
      [failedVoucher]).1.status = partialPurchase.status ∧
    (retryFailedVouchers (fun _ => successVoucherEnv) partialPurchase
      [failedVoucher]).1.total_wholesale_cost = partialPurchase.total_wholesale_cost ∧
    (retryFailedVouchers (fun _ => successVoucherEnv) partialPurchase
      [failedVoucher]).1.ubiqfy_balance_before = partialPurchase.ubiqfy_balance_before ∧
    (retryFailedVouchers (fun _ => successVoucherEnv) partialPurchase
      [failedVoucher]).1.error_message = partialPurchase.error_message :=
  c9_retry_scope (fun _ => successVoucherEnv) partialPurchase [failedVoucher] 0 (by decide)

/-- C4 is refuted by the code: after the FAILED unit with retry_count 1 is
retried successfully, the unit is GENERATED and the stored counts are refreshed
to two generated and zero failed, but retryFailedVouchers leaves the order
status at PARTIALLY_COMPLETED — the recount never rewrites the status field. -/
theorem c4_counterexample :
    ((retryFailedVouchers (fun _ => successVoucherEnv) partialPurchase
      [generatedVoucher, failedVoucher]).2.map (fun v => v.status)) =
        [VoucherStatus.GENERATED, VoucherStatus.GENERATED] ∧
    (retryFailedVouchers (fun _ => successVoucherEnv) partialPurchase
      [generatedVoucher, failedVoucher]).1.total_vouchers_generated = 2 ∧
    (retryFailedVouchers (fun _ => successVoucherEnv) partialPurchase
      [generatedVoucher, failedVoucher]).1.total_vouchers_failed = 0 ∧
    (retryFailedVouchers (fun _ => successVoucherEnv) partialPurchase
      [generatedVoucher, failedVoucher]).1.status =
        PurchaseOrderStatus.PARTIALLY_COMPLETED := by
  decide

/-- C4 amended: on a PARTIALLY_COMPLETED order with one GENERATED unit and one
FAILED unit at retry_count 1, a retry in which the issuer now succeeds moves
the failed unit to GENERATED and the recount stores two generated and zero
failed vouchers, but the order status field itself is left unchanged by
retryFailedVouchers. -/
theorem c4_amended_retry_recount (venv : MerchantVoucherPurchaseDetail → VoucherEnv)
    (purchase : MerchantVoucherPurchase) (vg vf : MerchantVoucherPurchaseDetail)
    (hg : vg.status = VoucherStatus.GENERATED)
    (hf : vf.status = VoucherStatus.FAILED)
    (hr : vf.retry_count = 1)
    (hsucc : (processSingleVoucher (venv vf) vf).voucher.status = VoucherStatus.GENERATED) :
    ((retryFailedVouchers venv purchase [vg, vf]).2.map (fun v => v.status)) =
      [VoucherStatus.GENERATED, VoucherStatus.GENERATED] ∧
    (retryFailedVouchers venv purchase [vg, vf]).1.total_vouchers_generated = 2 ∧
    (retryFailedVouchers venv purchase [vg, vf]).1.total_vouchers_failed = 0 ∧
    (retryFailedVouchers venv purchase [vg, vf]).1.status = purchase.status := by
  have hcond : ¬(vg.status = VoucherStatus.FAILED ∧ vg.retry_count < 3) := by
    simp [hg]
  refine ⟨?_, ?_, ?_, rfl⟩ <;>
    simp [retryFailedVouchers, updatePurchaseCounts, countStatus, hg, hf, hr, hsucc, hcond]

/-- Concrete instantiation of c4_amended_retry_recount on the sample retry
scenario. -/
theorem c4_amended_retry_recount_witness :
    ((retryFailedVouchers (fun _ => successVoucherEnv) partialPurchase
      [generatedVoucher, failedVoucher]).2.map (fun v => v.status)) =
        [VoucherStatus.GENERATED, VoucherStatus.GENERATED] ∧
    (retryFailedVouchers (fun _ => successVoucherEnv) partialPurchase
      [generatedVoucher, failedVoucher]).1.total_vouchers_generated = 2 ∧
    (retryFailedVouchers (fun _ => successVoucherEnv) partialPurchase
      [generatedVoucher, failedVoucher]).1.total_vouchers_failed = 0 ∧
    (retryFailedVouchers (fun _ => successVoucherEnv) partialPurchase
      [generatedVoucher, failedVoucher]).1.status = partialPurchase.status :=
  c4_amended_retry_recount (fun _ => successVoucherEnv) partialPurchase
    generatedVoucher failedVoucher rfl rfl rfl (by decide)

theorem updatePurchaseStatus_status (now : ℕ) (p : MerchantVoucherPurchase)
    (st : PurchaseOrderStatus) : (updatePurchaseStatus now p st).status = st := by
  unfold updatePurchaseStatus
  split
  · rfl
  · split
    · rfl
    · rfl

theorem updatePurchaseCounts_status (p : MerchantVoucherPurchase)
    (vouchers : List MerchantVoucherPurchaseDetail) :
    (updatePurchaseCounts p vouchers).status = p.status := rfl

/-- C1 is refuted by the code: with one pending unit that the issuer rejects
with a parsed OperationSucceeded false response, the run reaches terminal
status COMPLETED although zero units are GENERATED and one unit is FAILED —
the claimed unit-status reading demands FAILED. The loop counts the call as a
success because the executor does not throw on a parsed rejection. -/
theorem c1_counterexample :
    (processPurchaseOrder rejectionOrderEnv samplePurchase [sampleItem]
      [samplePendingVoucher] []).purchase.status = PurchaseOrderStatus.COMPLETED ∧
    countStatus VoucherStatus.GENERATED
      (processPurchaseOrder rejectionOrderEnv samplePurchase [sampleItem]
        [samplePendingVoucher] []).vouchers = 0 ∧
    countStatus VoucherStatus.FAILED
      (processPurchaseOrder rejectionOrderEnv samplePurchase [sampleItem]
        [samplePendingVoucher] []).vouchers = 1 := by
  have hbc : checkBalanceAndUpdatePricing rejectionOrderEnv.balance samplePurchase
      [sampleItem] [] =
      Except.ok (expectedBalancePurchase, [expectedBalanceItem], [], expectedBalanceReturn) := by
    norm_num [checkBalanceAndUpdatePricing, updateItemsPricing, updateMatchingOptions,
      rejectionOrderEnv, sampleBalanceEnv, samplePurchase, sampleItem, sampleAuth,
      samplePricing, expectedBalancePurchase, expectedBalanceItem, expectedBalanceReturn]
  simp only [processPurchaseOrder, hbc]
  decide

/-- C1 amended: when a processPurchaseOrder run completes without throwing, the
terminal status is derived from the executor call counts — COMPLETED when no
executor call threw, PARTIALLY_COMPLETED when some threw and some did not,
FAILED otherwise — where a parsed issuer rejection (OperationSucceeded false)
counts as a non-throwing call, not from the per-unit GENERATED/FAILED unit
statuses. -/
theorem c1_amended_terminal_status (env : OrderEnv) (purchase : MerchantVoucherPurchase)
    (items : List MerchantVoucherPurchaseItem)
    (vouchers : List MerchantVoucherPurchaseDetail)
    (options : List SallaStoreProductOption)
    (h : (processPurchaseOrder env purchase items vouchers options).thrown = none) :
    (processPurchaseOrder env purchase items vouchers options).purchase.status =
      (if callFailureCount env.venv vouchers = 0 then PurchaseOrderStatus.COMPLETED
       else if callSuccessCount env.venv vouchers > 0 then
         PurchaseOrderStatus.PARTIALLY_COMPLETED
       else PurchaseOrderStatus.FAILED) := by
  simp only [processPurchaseOrder] at h ⊢
  cases hbc : checkBalanceAndUpdatePricing env.balance purchase items options with
  | error e => simp only [hbc] at h; exact Option.noConfusion h
  | ok out =>
    obtain ⟨p0, items2, options2, check⟩ := out
    simp only [hbc] at h ⊢
    by_cases hs : check.sufficient = false
    · rw [if_pos hs] at h; exact Option.noConfusion h
    · rw [if_neg hs] at h ⊢
      cases hfa : env.finalAuth with
      | error e => simp only [hfa] at h; exact Option.noConfusion h
      | ok a =>
        simp only [hfa] at h ⊢
        by_cases hsc : callSuccessCount env.venv vouchers > 0
        · rw [if_pos hsc]
          cases hat : attachAllVoucherCodesToSalla env.publish
              (processPendingVouchers env.venv vouchers) options2 with
          | error e =>
            simp only [hat]
            simp [updatePurchaseCounts, updatePurchaseStatus_status]
          | ok triple =>
            obtain ⟨v3, o3, posts⟩ := triple
            simp only [hat]
            simp [updatePurchaseCounts, updatePurchaseStatus_status]
        · rw [if_neg hsc]
          simp [updatePurchaseCounts, updatePurchaseStatus_status]

/-- Concrete instantiation of c1_amended_terminal_status on the issuer
rejection run. -/
theorem c1_amended_terminal_status_witness :
    (processPurchaseOrder rejectionOrderEnv samplePurchase [sampleItem]
      [samplePendingVoucher] []).purchase.status =
      (if callFailureCount rejectionOrderEnv.venv [samplePendingVoucher] = 0 then
        PurchaseOrderStatus.COMPLETED
       else if callSuccessCount rejectionOrderEnv.venv [samplePendingVoucher] > 0 then
         PurchaseOrderStatus.PARTIALLY_COMPLETED
       else PurchaseOrderStatus.FAILED) :=
  c1_amended_terminal_status rejectionOrderEnv samplePurchase [sampleItem]
    [samplePendingVoucher] [] (by
      have hbc : checkBalanceAndUpdatePricing rejectionOrderEnv.balance samplePurchase
          [sampleItem] [] =
          Except.ok (expectedBalancePurchase, [expectedBalanceItem], [],
            expectedBalanceReturn) := by
        norm_num [checkBalanceAndUpdatePricing, updateItemsPricing, updateMatchingOptions,
          rejectionOrderEnv, sampleBalanceEnv, samplePurchase, sampleItem, sampleAuth,
          samplePricing, expectedBalancePurchase, expectedBalanceItem, expectedBalanceReturn]
      simp only [processPurchaseOrder, hbc]
      decide)

/-- C2 is refuted by the code: a GENERATED unit already flagged salla_synced is
selected again by a second attachAllVoucherCodesToSalla invocation — its code
is re-posted to the storefront product and the stock counter is incremented
again (from 5 to 6). -/
theorem c2_counterexample :
    syncedVoucher.salla_synced = true ∧
    attachPosts (attachAllVoucherCodesToSalla samplePublishEnv
      [syncedVoucher] [sampleOption]) = [("P1", ["CODE1"])] ∧
    attachStocks (attachAllVoucherCodesToSalla samplePublishEnv
      [syncedVoucher] [sampleOption]) = [some 6] := by
  decide

theorem groupStep_setSallaFlags (options : List SallaStoreProductOption)
    (m : List (String × List String)) (b : Bool) (t : Option ℕ)
    (v : MerchantVoucherPurchaseDetail) :
    groupStep options m (setSallaFlags b t v) = groupStep options m v := rfl

theorem filter_generated_setSallaFlags (b : Bool) (t : Option ℕ)
    (vouchers : List MerchantVoucherPurchaseDetail) :
    (vouchers.map (setSallaFlags b t)).filter
        (fun v => decide (v.status = VoucherStatus.GENERATED)) =
      (vouchers.filter (fun v => decide (v.status = VoucherStatus.GENERATED))).map
        (setSallaFlags b t) := by
  induction vouchers with
  | nil => rfl
  | cons v rest ih =>
    simp only [List.map_cons, List.filter_cons]
    by_cases hv : v.status = VoucherStatus.GENERATED
    · simp [setSallaFlags, hv, ih]
    · simp [setSallaFlags, hv, ih]

theorem groupVouchersByProduct_setSallaFlags (options : List SallaStoreProductOption)
    (b : Bool) (t : Option ℕ) (l : List MerchantVoucherPurchaseDetail) :
    groupVouchersByProduct options (l.map (setSallaFlags b t)) =
      groupVouchersByProduct options l := by
  unfold groupVouchersByProduct
  rw [List.foldl_map]
  have hfun : (fun (m : List (String × List String)) v =>
      groupStep options m (setSallaFlags b t v)) = fun m v => groupStep options m v := by
    funext m v
    exact groupStep_setSallaFlags options m b t v
  rw [hfun]

theorem attachGroups_observable (env : PublishEnv) :
    ∀ (groups : List (String × List String))
      (vs1 vs2 : List MerchantVoucherPurchaseDetail)
      (options : List SallaStoreProductOption),
      (attachGroups env groups vs1 options).map (fun x => (x.2.1, x.2.2)) =
        (attachGroups env groups vs2 options).map (fun x => (x.2.1, x.2.2)) := by
  intro groups
  induction groups with
  | nil => intro vs1 vs2 options; rfl
  | cons g rest ih =>
    intro vs1 vs2 options
    obtain ⟨productId, codes⟩ := g
    simp only [attachGroups]
    unfold attachVoucherCodesToSallaProduct
    cases hp : env.sallaPost productId codes with
    | error e => simp [hp]
    | ok u =>
      simp only [hp]
      have h2 := ih (flagVouchersAsSyncedToSalla env.now codes vs1)
        (flagVouchersAsSyncedToSalla env.now codes vs2)
        (refreshStockLevels env.now productId codes.length options)
      cases h1 : attachGroups env rest (flagVouchersAsSyncedToSalla env.now codes vs1)
          (refreshStockLevels env.now productId codes.length options) with
      | error e =>
        cases hB : attachGroups env rest (flagVouchersAsSyncedToSalla env.now codes vs2)
            (refreshStockLevels env.now productId codes.length options) with
        | error eB =>
          rw [h1, hB] at h2
          simp only [Except.map, Except.error.injEq] at h2
          simp [h1, hB, h2, Except.map]
        | ok tB =>
          rw [h1, hB] at h2
          simp [Except.map] at h2
      | ok tA =>
        cases hB : attachGroups env rest (flagVouchersAsSyncedToSalla env.now codes vs2)
            (refreshStockLevels env.now productId codes.length options) with
        | error eB =>
          rw [h1, hB] at h2
          simp [Except.map] at h2
        | ok tB =>
          obtain ⟨vA, oA, postsA⟩ := tA
          obtain ⟨vB, oB, postsB⟩ := tB
          rw [h1, hB] at h2
          simp only [Except.map, Except.ok.injEq, Prod.mk.injEq] at h2
          obtain ⟨ho, hposts⟩ := h2
          simp [h1, hB, Except.map, ho, hposts]

/-- C2 amended: attachAllVoucherCodesToSalla selects units by status GENERATED
alone — the salla_synced flag and timestamp have no influence on which codes
are regrouped, which posts are sent, or how stock is incremented — so a second
invocation selects already-published units again instead of excluding them;
the step is not idempotent. -/
theorem c2_amended_selection_ignores_synced_flag (env : PublishEnv)
    (vouchers : List MerchantVoucherPurchaseDetail)
    (options : List SallaStoreProductOption) (b : Bool) (t : Option ℕ) :
    attachObservable (attachAllVoucherCodesToSalla env
        (vouchers.map (setSallaFlags b t)) options) =
      attachObservable (attachAllVoucherCodesToSalla env vouchers options) := by
  simp only [attachAllVoucherCodesToSalla, attachObservable]
  rw [filter_generated_setSallaFlags, List.length_map]
  by_cases hlen : (vouchers.filter
      (fun v => decide (v.status = VoucherStatus.GENERATED))).length = 0
  · rw [if_pos hlen, if_pos hlen]
    simp [Except.map]
  · rw [if_neg hlen, if_neg hlen]
    rw [groupVouchersByProduct_setSallaFlags]
    exact attachGroups_observable env _ _ _ _
